import Mathlib

/-!
Shallow embedding of `timebeat_ssh_cli.py`: the Timebeat SSH CLI.

The program is a command-dispatch layer (`TimebeatSSHServer`) over a small
configuration/service layer (`TimebeatCLI`).  External effects (the
configuration file on disk and the `systemctl` / `journalctl` / `chrony` /
`timedatectl` tool invocations) are modelled by an explicit environment
`Env`: each tool invocation is an `Except String RunResult` value (a raised
exception becomes `.error e`, a completed subprocess becomes `.ok r` with
its exit code, stdout and stderr), and the success of writing or reading the
configuration file is a Boolean field of the environment.  The mutable state
of the CLI object (`self.config`) together with the on-disk file is the
state type `CLIState`, threaded explicitly.
-/

namespace Timebeat

/-- Result of a completed `subprocess.run` invocation: exit code, captured
stdout and stderr. -/
structure RunResult where
  returncode : Int
  stdout : String
  stderr : String
deriving Repr, DecidableEq

/-- Outcome of one tool invocation: `.error e` models the call raising an
exception `e` (tool missing, I/O error), `.ok r` models a completed run. -/
abbrev ToolOutcome := Except String RunResult

/-- One clock entry of the configuration: a map with keys `protocol`,
`disable` (default false), and optionally `interface` / `ip` / `device`. -/
structure ClockEntry where
  protocol : String
  disable : Bool := false
  interface : Option String := none
  ip : Option String := none
  device : Option String := none
deriving Repr, DecidableEq

/-- The part of the loaded YAML document the program reads and writes:
`timebeat.clock_sync.primary_clocks` and `timebeat.clock_sync.secondary_clocks`. -/
structure Config where
  primary_clocks : List ClockEntry
  secondary_clocks : List ClockEntry
deriving Repr, DecidableEq

/-- Mutable state of a `TimebeatCLI` object together with the on-disk file:
`config` is `self.config` (`none` models a failed load, i.e. `None`), `disk`
is the parsed content of the configuration file at `config_path`. -/
structure CLIState where
  config : Option Config
  disk : Option Config
deriving Repr, DecidableEq

/-- Environment supplying the outcome of every external effect: whether
writing (`saveOk`) and reading (`loadOk`) the configuration file succeeds,
and the outcome of each tool invocation.  `journalctl` is a function of the
requested line count, so which count a command requests is observable. -/
structure Env where
  saveOk : Bool
  loadOk : Bool
  systemctlStatus : ToolOutcome
  systemctlStart : ToolOutcome
  systemctlStop : ToolOutcome
  systemctlRestart : ToolOutcome
  journalctl : Nat → ToolOutcome
  chronySources : ToolOutcome
  timedatectl : ToolOutcome

/-! ### Python string primitives used by the program -/

/-- Version of `List.isPrefixOf` on characters, written out so every lemma below is an
elementary induction. -/
def isPrefB : List Char → List Char → Bool
  | [], _ => true
  | _ :: _, [] => false
  | a :: as, b :: bs => a == b && isPrefB as bs

/-- Contiguous-sublist test on character lists: the semantics of Python's
`pat in s` for strings. -/
def isSubList (pat : List Char) : List Char → Bool
  | [] => pat.isEmpty
  | b :: bs => isPrefB pat (b :: bs) || isSubList pat bs

/-- Python's `pat in s` on strings. -/
def pyIn (pat s : String) : Bool := isSubList pat.data s.data

/-- Python's `s.lower()` (character-wise, as on the ASCII names this
program handles). -/
def pyLower (s : String) : String := ⟨s.data.map Char.toLower⟩

/-- Python's `s.upper()` (character-wise, as on the ASCII names this
program handles). -/
def pyUpper (s : String) : String := ⟨s.data.map Char.toUpper⟩

/-- Characters stripped from both ends by Python's `str.strip()`. -/
def stripChars (l : List Char) : List Char :=
  ((l.dropWhile Char.isWhitespace).reverse.dropWhile Char.isWhitespace).reverse

/-- Python's `line.strip()`. -/
def pyStrip (s : String) : String := ⟨stripChars s.data⟩

/-- Splitting a character list on runs of whitespace, dropping empty pieces:
the semantics of Python's `s.split()` with no separator argument. -/
def wordsAux : List Char → List Char → List (List Char)
  | [], acc => if acc.isEmpty then [] else [acc.reverse]
  | c :: rest, acc =>
    if c.isWhitespace then
      if acc.isEmpty then wordsAux rest [] else acc.reverse :: wordsAux rest []
    else wordsAux rest (c :: acc)

/-- Python's `command_line.split()`. -/
def pySplit (s : String) : List String := (wordsAux s.data []).map fun l => ⟨l⟩

/-- Joining character-list chunks with single spaces (used to reason about
the space-separated message formats below). -/
def sepJoin : List (List Char) → List Char
  | [] => []
  | [a] => a
  | a :: b :: rest => a ++ ' ' :: sepJoin (b :: rest)

/-! ### `TimebeatCLI`: configuration and service layer -/

namespace TimebeatCLI

/-- Embeds `TimebeatCLI.load_config`: reads and parses the file at `config_path`
into `self.config`; on any exception `self.config` is left untouched and
`False` is returned.  A missing file or a parse/I/O failure is modelled by
`st.disk = none` respectively `env.loadOk = false`. -/
def load_config (env : Env) (st : CLIState) : Bool × CLIState :=
  match env.loadOk, st.disk with
  | true, some cfg => (true, { st with config := some cfg })
  | _, _ => (false, st)

/-- Embeds `TimebeatCLI.save_config`: serializes `self.config` and overwrites the
file at `config_path`; returns `True` on success.  On failure (modelled by
`env.saveOk = false`) the file is left unchanged and `False` is returned;
the in-memory document is never touched. -/
def save_config (env : Env) (st : CLIState) : Bool × CLIState :=
  if env.saveOk then (true, { st with disk := st.config }) else (false, st)

/-- Embeds `TimebeatCLI.get_status`: runs `systemctl status timebeat` and returns
its stdout; an exception degrades to an error line. -/
def get_status (env : Env) : String :=
  match env.systemctlStatus with
  | .ok r => r.stdout
  | .error e => "Error getting status: " ++ e

/-- Embeds `TimebeatCLI.start_service`: runs `systemctl start timebeat`; success
line on exit code 0, otherwise an error line embedding stderr; an exception
degrades to an error line. -/
def start_service (env : Env) : String :=
  match env.systemctlStart with
  | .ok r =>
    if r.returncode = 0 then "Timebeat service started successfully"
    else "Failed to start timebeat: " ++ r.stderr
  | .error e => "Error starting service: " ++ e

/-- Embeds `TimebeatCLI.stop_service`: runs `systemctl stop timebeat`. -/
def stop_service (env : Env) : String :=
  match env.systemctlStop with
  | .ok r =>
    if r.returncode = 0 then "Timebeat service stopped successfully"
    else "Failed to stop timebeat: " ++ r.stderr
  | .error e => "Error stopping service: " ++ e

/-- Embeds `TimebeatCLI.restart_service`: runs `systemctl restart timebeat`. -/
def restart_service (env : Env) : String :=
  match env.systemctlRestart with
  | .ok r =>
    if r.returncode = 0 then "Timebeat service restarted successfully"
    else "Failed to restart timebeat: " ++ r.stderr
  | .error e => "Error restarting service: " ++ e

/-- Embeds `TimebeatCLI.get_logs`: runs `journalctl -u timebeat -n <lines>` and
returns its stdout; an exception degrades to an error line. -/
def get_logs (env : Env) (lines : Nat) : String :=
  match env.journalctl lines with
  | .ok r => r.stdout
  | .error e => "Error getting logs: " ++ e

/-- Embeds `TimebeatCLI.get_clock_sync_status`: runs `chrony sources`, appends a
newline, then runs `timedatectl status` and appends its stdout; if either
invocation raises, the whole result is a single error line. -/
def get_clock_sync_status (env : Env) : String :=
  match env.chronySources with
  | .error e => "Error getting clock sync status: " ++ e
  | .ok r1 =>
    match env.timedatectl with
    | .error e => "Error getting clock sync status: " ++ e
    | .ok r2 => r1.stdout ++ "\n" ++ r2.stdout

/-- The endpoint shown for a clock entry:
`clock.get('interface', clock.get('ip', clock.get('device', 'N/A')))`. -/
def endpoint (c : ClockEntry) : String :=
  match c.interface with
  | some s => s
  | none =>
    match c.ip with
    | some s => s
    | none =>
      match c.device with
      | some s => s
      | none => "N/A"

/-- The line `list_protocols` renders for one clock entry:
two spaces, the uppercased protocol, `ENABLED`/`DISABLED`, the endpoint. -/
def clockLine (c : ClockEntry) : String :=
  "  " ++ pyUpper c.protocol ++ ": " ++
    (if c.disable then "DISABLED" else "ENABLED") ++ " (" ++ endpoint c ++ ")"

/-- Joining a list of strings with newlines: Python's `"\n".join(lines)`. -/
def joinLines : List String → String
  | [] => ""
  | [s] => s
  | s :: t :: rest => s ++ "\n" ++ joinLines (t :: rest)

/-- Embeds `TimebeatCLI.list_protocols`: renders the two clock sections, one line
per entry, or a not-loaded message. -/
def list_protocols (st : CLIState) : String :=
  match st.config with
  | none => "Configuration not loaded"
  | some cfg =>
    joinLines (["=== PRIMARY CLOCKS ==="] ++ cfg.primary_clocks.map clockLine
      ++ ["\n=== SECONDARY CLOCKS ==="] ++ cfg.secondary_clocks.map clockLine)

/-- The clock list selected by `clock_type`:
`self.config[...][f"{clock_type}_clocks"]` with `[]` as default for an
unknown key. -/
def clockList (cfg : Config) (clock_type : String) : List ClockEntry :=
  if clock_type = "primary" then cfg.primary_clocks
  else if clock_type = "secondary" then cfg.secondary_clocks
  else []

/-- Writing back the clock list selected by `clock_type` (the mutation of
the chosen list in place). -/
def withClockList (cfg : Config) (clock_type : String) (l : List ClockEntry) : Config :=
  if clock_type = "primary" then { cfg with primary_clocks := l }
  else if clock_type = "secondary" then { cfg with secondary_clocks := l }
  else cfg

/-- The scan inside `toggle_protocol`: find the first entry whose protocol
matches case-insensitively, flip its `disable` flag, and return the updated
list together with the entry's previous `disable` value (`current_status`);
`none` when no entry matches. -/
def flipFirst (protocol : String) : List ClockEntry → Option (List ClockEntry × Bool)
  | [] => none
  | c :: rest =>
    if pyLower c.protocol = pyLower protocol then
      some (({ c with disable := !c.disable }) :: rest, c.disable)
    else
      match flipFirst protocol rest with
      | none => none
      | some (l, s) => some (c :: l, s)

/-- The flip of one clock entry's `disable` flag (the effect of
`clock['disable'] = not current_status` on the matched entry). -/
def flipEntry (c : ClockEntry) : ClockEntry := { c with disable := !c.disable }

/-- The success message of `toggle_protocol`:
`f"Protocol {protocol.upper()} {new_status} in {clock_type} clocks"`
(written with each space an explicit separator). -/
def toggleMsg (protocol clock_type new_status : String) : String :=
  "Protocol" ++ " " ++ pyUpper protocol ++ " " ++ new_status ++ " " ++ "in" ++ " " ++
    clock_type ++ " " ++ "clocks"

/-- The not-found message of `toggle_protocol`:
`f"Protocol {protocol} not found in {clock_type} clocks"`
(written with each space an explicit separator). -/
def notFoundMsg (protocol clock_type : String) : String :=
  "Protocol" ++ " " ++ protocol ++ " " ++ "not" ++ " " ++ "found" ++ " " ++ "in" ++ " " ++
    clock_type ++ " " ++ "clocks"

/-- Embeds `TimebeatCLI.toggle_protocol`: on the first case-insensitive match in
the selected clock list, flips its `disable` flag in memory, then attempts
`save_config`; reports the new state on save success, a save-failure
message otherwise (the in-memory flip is kept), and a not-found message
when no entry matches. -/
def toggle_protocol (env : Env) (st : CLIState) (protocol clock_type : String) :
    String × CLIState :=
  match st.config with
  | none => ("Configuration not loaded", st)
  | some cfg =>
    match flipFirst protocol (clockList cfg clock_type) with
    | none => (notFoundMsg protocol clock_type, st)
    | some (newList, current_status) =>
      let st2 : CLIState := { st with config := some (withClockList cfg clock_type newList) }
      match save_config env st2 with
      | (true, st3) =>
        (toggleMsg protocol clock_type (if !current_status then "DISABLED" else "ENABLED"), st3)
      | (false, st3) => ("Failed to save configuration", st3)

end TimebeatCLI

/-! ### `TimebeatSSHServer`: command handlers, dispatch and session loop -/

namespace TimebeatSSHServer

/-- Outcome of running one command handler: a returned response string, or a
raised exception (rendered by the dispatch loop as an error line). -/
inductive HOut where
  | ok (result : String)
  | raised (e : String)
deriving Repr, DecidableEq

/-- A command handler: takes the CLI state and the argument list, returns an
outcome together with the possibly mutated state. -/
abbrev Handler := CLIState → List String → HOut × CLIState

/-- The help text returned by `TimebeatSSHServer.show_help`. -/
def help_text : String :=
  "\nAvailable Commands:\n------------------\n" ++
  "status          - Show timebeat service status\n" ++
  "start           - Start timebeat service\n" ++
  "stop            - Stop timebeat service  \n" ++
  "restart         - Restart timebeat service\n" ++
  "logs [lines]    - Show timebeat logs (default: 50 lines)\n" ++
  "protocols       - List all configured protocols\n" ++
  "enable <proto>  - Enable a protocol (ptp, ntp, pps, nmea, phc)\n" ++
  "disable <proto> - Disable a protocol\n" ++
  "clock           - Show clock synchronization status\n" ++
  "config          - Show current configuration\n" ++
  "reload          - Reload configuration from file\n" ++
  "help            - Show this help message\n" ++
  "exit/quit       - Exit the session\n\n" ++
  "Examples:\n---------\n" ++
  "timebeat> status\ntimebeat> logs 100\ntimebeat> enable ptp\n" ++
  "timebeat> disable nmea\ntimebeat> protocols\n        "

/-- Python's `str.isdigit` on the strings this program feeds it (ASCII):
nonempty and all characters decimal digits. -/
def isDigitStr (s : String) : Bool := !s.data.isEmpty && s.data.all Char.isDigit

/-- Python's `int(s)` on a digit string. -/
def digitsToNat (s : String) : Nat :=
  s.data.foldl (fun n c => n * 10 + (c.toNat - 48)) 0

/-- The line count computed by `TimebeatSSHServer.show_logs`: 50 by default,
`int(args[0])` when the first argument passes `isdigit`. -/
def show_logs_lines (args : List String) : Nat :=
  match args with
  | [] => 50
  | a :: _ => if isDigitStr a then digitsToNat a else 50

/-- Embeds `TimebeatSSHServer.show_logs`: requests `show_logs_lines args` lines
from the log tool. -/
def show_logs (env : Env) (args : List String) : String :=
  TimebeatCLI.get_logs env (show_logs_lines args)

/-- The clock class argument of `enable`/`disable`:
`args[1] if len(args) > 1 else "primary"`. -/
def argClockType (rest : List String) : String :=
  match rest with
  | [] => "primary"
  | ct :: _ => ct

/-- Embeds `TimebeatSSHServer.enable_protocol`: usage message without arguments;
otherwise toggles the protocol and, when the result text contains
`"ENABLED"`, restarts the service and joins both texts with a newline. -/
def enable_protocol (env : Env) (st : CLIState) (args : List String) : String × CLIState :=
  match args with
  | [] => ("Usage: enable <protocol>", st)
  | protocol :: rest =>
    let r := TimebeatCLI.toggle_protocol env st protocol (argClockType rest)
    if pyIn "ENABLED" r.1 then
      (r.1 ++ "\n" ++ TimebeatCLI.restart_service env, r.2)
    else r

/-- Embeds `TimebeatSSHServer.disable_protocol`: usage message without arguments;
otherwise toggles the protocol and, when the result text contains
`"DISABLED"`, restarts the service and joins both texts with a newline. -/
def disable_protocol (env : Env) (st : CLIState) (args : List String) : String × CLIState :=
  match args with
  | [] => ("Usage: disable <protocol>", st)
  | protocol :: rest =>
    let r := TimebeatCLI.toggle_protocol env st protocol (argClockType rest)
    if pyIn "DISABLED" r.1 then
      (r.1 ++ "\n" ++ TimebeatCLI.restart_service env, r.2)
    else r

/-- Stand-in for the external YAML serializer used by
`TimebeatSSHServer.show_config` (`yaml.dump`); configuration serialization
is an external collaborator, and no property here depends on its text. -/
def yamlDump (cfg : Config) : String := reprStr cfg

/-- Embeds `TimebeatSSHServer.show_config`: the serialized document, or a
not-loaded message. -/
def show_config (st : CLIState) : String :=
  match st.config with
  | some cfg => yamlDump cfg
  | none => "Configuration not loaded"

/-- Embeds `TimebeatSSHServer.reload_config`: re-runs `load_config` and reports the
outcome. -/
def reload_config (env : Env) (st : CLIState) : String × CLIState :=
  match TimebeatCLI.load_config env st with
  | (true, st2) => ("Configuration reloaded successfully", st2)
  | (false, st2) => ("Failed to reload configuration", st2)

/-- Embeds `TimebeatSSHServer.exit_session`: returns the farewell message (and
nothing else: it does not signal the loop). -/
def exit_session : String := "Goodbye!"

/-- The command table `self.commands` of `TimebeatSSHServer`, as the lookup
function used by the dispatch loop; every handler of the source returns
normally, so each is wrapped as a `HOut.ok` result. -/
def commands (env : Env) (name : String) : Option Handler :=
  if name = "help" then some fun st _ => (.ok help_text, st)
  else if name = "status" then some fun st _ => (.ok (TimebeatCLI.get_status env), st)
  else if name = "start" then some fun st _ => (.ok (TimebeatCLI.start_service env), st)
  else if name = "stop" then some fun st _ => (.ok (TimebeatCLI.stop_service env), st)
  else if name = "restart" then some fun st _ => (.ok (TimebeatCLI.restart_service env), st)
  else if name = "logs" then some fun st args => (.ok (show_logs env args), st)
  else if name = "protocols" then some fun st _ => (.ok (TimebeatCLI.list_protocols st), st)
  else if name = "enable" then some fun st args =>
    let r := enable_protocol env st args; (.ok r.1, r.2)
  else if name = "disable" then some fun st args =>
    let r := disable_protocol env st args; (.ok r.1, r.2)
  else if name = "clock" then some fun st _ => (.ok (TimebeatCLI.get_clock_sync_status env), st)
  else if name = "config" then some fun st _ => (.ok (show_config st), st)
  else if name = "reload" then some fun st _ =>
    let r := reload_config env st; (.ok r.1, r.2)
  else if name = "exit" then some fun st _ => (.ok exit_session, st)
  else if name = "quit" then some fun st _ => (.ok exit_session, st)
  else none

/-- One dispatch step of `handle_client` on a stripped, nonempty command
line: tokenize, lowercase the first token, look it up, run the handler
(catching a raised exception as an error line), or emit the
unknown-command message and hint.  Returns the strings written and the new
state. -/
def processLine (tbl : String → Option Handler) (st : CLIState) (command_line : String) :
    List String × CLIState :=
  match pySplit command_line with
  | [] => ([], st)
  | p :: args =>
    let command := pyLower p
    match tbl command with
    | some h =>
      match h st args with
      | (.ok result, st2) => ([result ++ "\n\n"], st2)
      | (.raised e, st2) => (["Error executing command: " ++ e ++ "\n\n"], st2)
    | none => (["Unknown command: " ++ command ++ "\n",
                "Type \x27help\x27 for available commands\n\n"], st)

/-- The `while True` loop of `handle_client`, over the session's input
lines: each iteration writes the prompt, reads a line (end of the list is
end-of-input, which breaks the loop), strips it, skips empty lines, and
dispatches via `processLine`.  Returns the full transcript of strings
written and the final state. -/
def session_loop (tbl : String → Option Handler) :
    CLIState → List String → List String × CLIState
  | st, [] => (["timebeat> "], st)
  | st, line :: rest =>
    let command_line := pyStrip line
    if command_line = "" then
      let r := session_loop tbl st rest
      ("timebeat> " :: r.1, r.2)
    else
      let pr := processLine tbl st command_line
      let r := session_loop tbl pr.2 rest
      ("timebeat> " :: (pr.1 ++ r.1), r.2)

/-- Embeds `TimebeatSSHServer.handle_client`: the welcome banner followed by the
session loop over the connection's input lines. -/
def handle_client (tbl : String → Option Handler) (st : CLIState) (lines : List String) :
    List String × CLIState :=
  let r := session_loop tbl st lines
  ("Welcome to Timebeat SSH CLI Interface\n" ::
    "Type \x27help\x27 for available commands\n\n" :: r.1, r.2)

end TimebeatSSHServer

/-! ### Concrete fixtures used by witnesses and counterexamples -/

/-- A completed tool run. -/
def okRun (code : Int) (out err : String) : ToolOutcome := Except.ok ⟨code, out, err⟩

/-- Environment in which every external effect succeeds. -/
def envAllOk : Env where
  saveOk := true
  loadOk := true
  systemctlStatus := okRun 0 "ACTIVE" ""
  systemctlStart := okRun 0 "" ""
  systemctlStop := okRun 0 "" ""
  systemctlRestart := okRun 0 "" ""
  journalctl := fun _ => okRun 0 "LOGS" ""
  chronySources := okRun 0 "CHRONY" ""
  timedatectl := okRun 0 "TDCTL" ""

/-- A single enabled `ptp` primary clock. -/
def entryPtpOn : ClockEntry := { protocol := "ptp", interface := some "eth0" }

/-- A single disabled `ptp` primary clock. -/
def entryPtpOff : ClockEntry := { protocol := "ptp", disable := true, interface := some "eth0" }

/-- Configuration with one enabled `ptp` primary clock. -/
def cfgPtpOn : Config := ⟨[entryPtpOn], []⟩

/-- Configuration with one disabled `ptp` primary clock. -/
def cfgPtpOff : Config := ⟨[entryPtpOff], []⟩

/-- Configuration with no clock entries at all. -/
def cfgEmpty : Config := ⟨[], []⟩

/-- Loaded state over `cfgPtpOn`, file in sync. -/
def stPtpOn : CLIState := ⟨some cfgPtpOn, some cfgPtpOn⟩

/-- Loaded state over `cfgPtpOff`, file in sync. -/
def stPtpOff : CLIState := ⟨some cfgPtpOff, some cfgPtpOff⟩

/-- Loaded state over `cfgEmpty`, file in sync. -/
def stEmpty : CLIState := ⟨some cfgEmpty, some cfgEmpty⟩

/-- Environment identical to `envAllOk` except that writing the
configuration file fails. -/
def envNoSave : Env := { envAllOk with saveOk := false }

/-- Environment whose log tool reports which line count was requested. -/
def envLogsProbe : Env :=
  { envAllOk with
    journalctl := fun n => okRun 0 (if n = 7 then "seven" else if n = 50 then "fifty" else "other") "" }

/-- A second primary entry with the same protocol name in different case. -/
def entryPtpUpper : ClockEntry := { protocol := "PTP", disable := true, ip := some "10.0.0.1" }

/-- A secondary `ntp` entry. -/
def entryNtp : ClockEntry := { protocol := "ntp" }

/-- Configuration with two primary entries sharing the protocol name `ptp`
(case-insensitively) and one secondary entry. -/
def cfgTwoPtp : Config := ⟨[entryPtpOn, entryPtpUpper], [entryNtp]⟩

/-- Loaded state over `cfgTwoPtp`, file in sync. -/
def stTwoPtp : CLIState := ⟨some cfgTwoPtp, some cfgTwoPtp⟩

/-- Environment whose `systemctl status` exits nonzero with output on both
streams. -/
def envStatusFail : Env := { envAllOk with systemctlStatus := okRun 3 "inactive" "boom" }

/-- Environment whose `systemctl start` exits nonzero. -/
def envStartFail : Env := { envAllOk with systemctlStart := okRun 1 "" "nope" }

/-- Environment in which every service-manager invocation raises. -/
def envSvcErr : Env :=
  { envAllOk with
    systemctlStatus := Except.error "E1"
    systemctlStart := Except.error "E2"
    systemctlStop := Except.error "E3"
    systemctlRestart := Except.error "E4" }

/-- Environment whose `chrony sources` invocation raises. -/
def envChronyFail : Env := { envAllOk with chronySources := Except.error "no chrony" }

/-- Environment whose `timedatectl status` invocation raises. -/
def envTdctlFail : Env := { envAllOk with timedatectl := Except.error "no tdc" }

/-- A command table with a single command `boom` whose handler raises: used
to witness the dispatch boundary of the session loop. -/
def tblRaise : String → Option TimebeatSSHServer.Handler :=
  fun n => if n = "boom" then some (fun st _ => (.raised "X", st)) else none

/-! ### Lemmas about the string primitives -/

theorem strData_append (s t : String) : (s ++ t).data = s.data ++ t.data := rfl

theorem isPrefB_self_append (pat t : List Char) : isPrefB pat (pat ++ t) = true := by
  induction pat with
  | nil => rfl
  | cons a as ih => simp [isPrefB, ih]

theorem isSubList_cons (pat : List Char) (x : Char) (l : List Char)
    (h : isSubList pat l = true) : isSubList pat (x :: l) = true := by
  cases l with
  | nil =>
    simp [isSubList] at h
    simp [isSubList, isPrefB, h]
  | cons b bs =>
    rw [isSubList, h]
    simp

theorem isSubList_prepend (pat a l : List Char) (h : isSubList pat l = true) :
    isSubList pat (a ++ l) = true := by
  induction a with
  | nil => simpa using h
  | cons x xs ih => exact isSubList_cons _ _ _ ih

theorem isSubList_self_append (pat t : List Char) : isSubList pat (pat ++ t) = true := by
  cases pat with
  | nil => cases t <;> simp [isSubList, isPrefB]
  | cons a as =>
    have h := isPrefB_self_append (a :: as) t
    simp only [List.cons_append] at h
    simp [isSubList, h]

theorem isSubList_middle (pre pat post : List Char) :
    isSubList pat (pre ++ pat ++ post) = true := by
  rw [List.append_assoc]
  exact isSubList_prepend _ _ _ (isSubList_self_append pat post)

theorem isPrefB_split (pat a b : List Char) (c : Char) (hc : c ∉ pat) :
    isPrefB pat (a ++ c :: b) = isPrefB pat a := by
  induction a generalizing pat with
  | nil =>
    cases pat with
    | nil => rfl
    | cons d ds =>
      have hdc : (d == c) = false := by
        simp only [beq_eq_false_iff_ne]
        intro h
        exact hc (h ▸ List.mem_cons_self d ds)
      simp [isPrefB, hdc]
  | cons x xs ih =>
    cases pat with
    | nil => rfl
    | cons d ds =>
      have hds : c ∉ ds := fun h => hc (List.mem_cons_of_mem _ h)
      simp [isPrefB, ih ds hds]

theorem isSubList_split (pat a b : List Char) (c : Char) (hc : c ∉ pat) :
    isSubList pat (a ++ c :: b) = (isSubList pat a || isSubList pat b) := by
  induction a with
  | nil =>
    cases pat with
    | nil => simp [isSubList, isPrefB]
    | cons d ds =>
      have hdc : (d == c) = false := by
        simp only [beq_eq_false_iff_ne]
        intro h
        exact hc (h ▸ List.mem_cons_self d ds)
      simp [isSubList, isPrefB, hdc]
  | cons x xs ih =>
    have h1 := isPrefB_split pat (x :: xs) b c hc
    simp only [List.cons_append] at h1 ⊢
    simp only [isSubList, ih, h1]
    simp [Bool.or_assoc]

theorem spaceData : (" " : String).data = [' '] := rfl

theorem pySplit_empty : pySplit "" = [] := rfl

theorem pyIn_of_eq_data (pat s : String) (a b : List Char)
    (h : s.data = a ++ pat.data ++ b) : pyIn pat s = true := by
  unfold pyIn
  rw [h]
  exact isSubList_middle _ _ _

theorem pyIn_middle (pat a b : String) : pyIn pat (a ++ pat ++ b) = true := by
  apply pyIn_of_eq_data pat _ a.data b.data
  rw [strData_append, strData_append]

theorem pyIn_suffix (pat a : String) : pyIn pat (a ++ pat) = true := by
  apply pyIn_of_eq_data pat _ a.data []
  rw [strData_append, List.append_nil]

theorem isSubList_joinLines (s : String) (l : List String) (h : s ∈ l) :
    isSubList s.data (TimebeatCLI.joinLines l).data = true := by
  induction l with
  | nil => cases h
  | cons t rest ih =>
    cases rest with
    | nil =>
      have hst : s = t := by simpa using h
      subst hst
      simpa using isSubList_self_append s.data []
    | cons u us =>
      rcases List.mem_cons.mp h with rfl | hmem
      · show isSubList s.data (s ++ "\n" ++ TimebeatCLI.joinLines (u :: us)).data = true
        rw [strData_append, strData_append, List.append_assoc]
        exact isSubList_self_append _ _
      · show isSubList s.data (t ++ "\n" ++ TimebeatCLI.joinLines (u :: us)).data = true
        rw [strData_append, strData_append, List.append_assoc]
        exact isSubList_prepend _ _ _ (isSubList_prepend _ _ _ (ih hmem))

/-! ### Lemmas about `flipFirst` and `toggle_protocol` -/

namespace TimebeatCLI

theorem flipFirst_none (p : String) (l : List ClockEntry)
    (h : ∀ x ∈ l, pyLower x.protocol ≠ pyLower p) : flipFirst p l = none := by
  induction l with
  | nil => rfl
  | cons x xs ih =>
    have hx : pyLower x.protocol ≠ pyLower p := h x (List.mem_cons_self _ _)
    have hxs := ih fun y hy => h y (List.mem_cons_of_mem _ hy)
    simp [flipFirst, hx, hxs]

theorem flipFirst_append (p : String) (pre : List ClockEntry) (c : ClockEntry)
    (post : List ClockEntry)
    (hpre : ∀ x ∈ pre, pyLower x.protocol ≠ pyLower p)
    (hc : pyLower c.protocol = pyLower p) :
    flipFirst p (pre ++ c :: post) = some (pre ++ flipEntry c :: post, c.disable) := by
  induction pre with
  | nil => simp [flipFirst, hc, flipEntry]
  | cons x xs ih =>
    have hx : pyLower x.protocol ≠ pyLower p := hpre x (List.mem_cons_self _ _)
    have hxs := ih fun y hy => hpre y (List.mem_cons_of_mem _ hy)
    simp [flipFirst, hx, hxs]

/-- A nonempty space-free pattern occurs in a space-joined list of chunks
exactly when it occurs in one of the chunks. -/
theorem isSubList_sepJoin (pat : List Char) (hsp : ' ' ∉ pat) (hne : pat ≠ [])
    (chunks : List (List Char)) :
    isSubList pat (sepJoin chunks) = chunks.any fun c => isSubList pat c := by
  induction chunks with
  | nil =>
    cases pat with
    | nil => exact absurd rfl hne
    | cons c cs => rfl
  | cons a rest ih =>
    cases rest with
    | nil => simp [sepJoin]
    | cons b rs =>
      rw [sepJoin, isSubList_split pat a (sepJoin (b :: rs)) ' ' hsp, ih]
      simp

/-- The data of a `toggle_protocol` success message, as space-joined
chunks. -/
theorem toggleMsg_data (p ct ns : String) :
    (toggleMsg p ct ns).data =
      sepJoin ["Protocol".data, (pyUpper p).data, ns.data, "in".data, ct.data,
        "clocks".data] := by
  simp [toggleMsg, sepJoin, strData_append, spaceData, List.append_assoc]

/-- The data of a `toggle_protocol` not-found message, as space-joined
chunks. -/
theorem notFoundMsg_data (p ct : String) :
    (notFoundMsg p ct).data =
      sepJoin ["Protocol".data, p.data, "not".data, "found".data, "in".data, ct.data,
        "clocks".data] := by
  simp [notFoundMsg, sepJoin, strData_append, spaceData, List.append_assoc]

/-- Occurrence of a space-free token in a `toggle_protocol` success message
reduces to its occurrence in the variable pieces (the uppercased protocol,
the reported status, the clock class). -/
theorem pyIn_toggleMsg_eq (tok p ct ns : String) (hsp : ' ' ∉ tok.data)
    (hne : tok.data ≠ [])
    (h1 : pyIn tok "Protocol" = false)
    (h2 : pyIn tok "in" = false)
    (h3 : pyIn tok "clocks" = false) :
    pyIn tok (toggleMsg p ct ns) = (pyIn tok (pyUpper p) || (pyIn tok ns || pyIn tok ct)) := by
  simp only [pyIn] at h1 h2 h3 ⊢
  rw [toggleMsg_data, isSubList_sepJoin tok.data hsp hne]
  simp [h1, h2, h3]

/-- Occurrence of a space-free token in a `toggle_protocol` not-found
message reduces to its occurrence in the echoed arguments. -/
theorem pyIn_notFoundMsg_eq (tok p ct : String) (hsp : ' ' ∉ tok.data)
    (hne : tok.data ≠ [])
    (h1 : pyIn tok "Protocol" = false)
    (h2 : pyIn tok "not" = false)
    (h3 : pyIn tok "found" = false)
    (h4 : pyIn tok "in" = false)
    (h5 : pyIn tok "clocks" = false) :
    pyIn tok (notFoundMsg p ct) = (pyIn tok p || pyIn tok ct) := by
  simp only [pyIn] at h1 h2 h3 h4 h5 ⊢
  rw [notFoundMsg_data, isSubList_sepJoin tok.data hsp hne]
  simp [h1, h2, h3, h4, h5]

/-- The reported status is a substring of the corresponding success
message. -/
theorem pyIn_toggleMsg_self (p ct ns : String) : pyIn ns (toggleMsg p ct ns) = true := by
  apply pyIn_of_eq_data ns _ ("Protocol" ++ " " ++ pyUpper p ++ " ").data
    ((" " ++ "in" ++ " " ++ ct ++ " " ++ "clocks").data)
  simp [toggleMsg, strData_append, List.append_assoc]

/-- The status word an entry's rendered line carries is a substring of that
line. -/
theorem pyIn_status_clockLine (c : ClockEntry) :
    pyIn (if c.disable then "DISABLED" else "ENABLED") (clockLine c) = true := by
  apply pyIn_of_eq_data _ _ ("  " ++ pyUpper c.protocol ++ ": ").data
    ((" (" ++ endpoint c ++ ")").data)
  simp [clockLine, strData_append, List.append_assoc]

/-- The rendered line of any entry of a loaded configuration occurs in the
`list_protocols` output. -/
theorem pyIn_clockLine_list_protocols (st : CLIState) (cfg : Config) (e : ClockEntry)
    (hcfg : st.config = some cfg)
    (h : e ∈ cfg.primary_clocks ∨ e ∈ cfg.secondary_clocks) :
    pyIn (clockLine e) (list_protocols st) = true := by
  have hmem : clockLine e ∈ (["=== PRIMARY CLOCKS ==="] ++ cfg.primary_clocks.map clockLine
      ++ ["\n=== SECONDARY CLOCKS ==="] ++ cfg.secondary_clocks.map clockLine) := by
    rcases h with h | h
    · simp only [List.mem_append, List.mem_map]
      exact Or.inl (Or.inl (Or.inr ⟨e, h, rfl⟩))
    · simp only [List.mem_append, List.mem_map]
      exact Or.inr ⟨e, h, rfl⟩
  have hj := isSubList_joinLines (clockLine e) _ hmem
  unfold pyIn
  simpa [list_protocols, hcfg] using hj

/-- Reading back the clock list just written under a valid class key. -/
theorem clockList_withClockList (cfg : Config) (ct : String) (l : List ClockEntry)
    (hct : ct = "primary" ∨ ct = "secondary") :
    clockList (withClockList cfg ct l) ct = l := by
  rcases hct with h | h <;> subst h <;> simp [clockList, withClockList]

/-- Writing a clock list leaves every other class key untouched. -/
theorem clockList_withClockList_other (cfg : Config) (ct ct2 : String)
    (l : List ClockEntry) (hct : ct = "primary" ∨ ct = "secondary") (hne : ct2 ≠ ct) :
    clockList (withClockList cfg ct l) ct2 = clockList cfg ct2 := by
  rcases hct with h | h <;> subst h <;> simp [clockList, withClockList, hne]

/-- Overwriting a clock list twice keeps only the second write. -/
theorem withClockList_withClockList (cfg : Config) (ct : String)
    (l1 l2 : List ClockEntry) (hct : ct = "primary" ∨ ct = "secondary") :
    withClockList (withClockList cfg ct l1) ct l2 = withClockList cfg ct l2 := by
  rcases hct with h | h <;> subst h <;> simp [withClockList]

/-- Writing back the list a valid class key already holds is the identity. -/
theorem withClockList_self (cfg : Config) (ct : String)
    (hct : ct = "primary" ∨ ct = "secondary") :
    withClockList cfg ct (clockList cfg ct) = cfg := by
  rcases hct with h | h <;> subst h <;> simp [withClockList, clockList]

/-- Flipping an entry twice restores it. -/
theorem flipEntry_flipEntry (c : ClockEntry) : flipEntry (flipEntry c) = c := by
  cases c
  simp [flipEntry]

/-- Evaluation of `toggle_protocol` on a loaded configuration whose selected clock list
decomposes as non-matching entries, a first match `c`, and a tail: with
`save` succeeding, the message reports the new state and both the in-memory
document and the file hold the flipped list. -/
theorem toggle_protocol_found_save (env : Env) (st : CLIState) (cfg : Config)
    (p ct : String) (pre : List ClockEntry) (c : ClockEntry) (post : List ClockEntry)
    (hcfg : st.config = some cfg) (hsave : env.saveOk = true)
    (hdec : clockList cfg ct = pre ++ c :: post)
    (hpre : ∀ x ∈ pre, pyLower x.protocol ≠ pyLower p)
    (hc : pyLower c.protocol = pyLower p) :
    toggle_protocol env st p ct =
      (toggleMsg p ct (if !c.disable then "DISABLED" else "ENABLED"),
       ⟨some (withClockList cfg ct (pre ++ flipEntry c :: post)),
        some (withClockList cfg ct (pre ++ flipEntry c :: post))⟩) := by
  have hflip := flipFirst_append p pre c post hpre hc
  simp [toggle_protocol, hcfg, hdec, hflip, save_config, hsave]

/-- Evaluation of `toggle_protocol` as above but with `save` failing: the save-failure
message is returned, the in-memory document keeps the flipped list, and the
file is unchanged. -/
theorem toggle_protocol_found_nosave (env : Env) (st : CLIState) (cfg : Config)
    (p ct : String) (pre : List ClockEntry) (c : ClockEntry) (post : List ClockEntry)
    (hcfg : st.config = some cfg) (hsave : env.saveOk = false)
    (hdec : clockList cfg ct = pre ++ c :: post)
    (hpre : ∀ x ∈ pre, pyLower x.protocol ≠ pyLower p)
    (hc : pyLower c.protocol = pyLower p) :
    toggle_protocol env st p ct =
      ("Failed to save configuration",
       ⟨some (withClockList cfg ct (pre ++ flipEntry c :: post)), st.disk⟩) := by
  have hflip := flipFirst_append p pre c post hpre hc
  simp [toggle_protocol, hcfg, hdec, hflip, save_config, hsave]

/-- Evaluation of `toggle_protocol` when no entry of the selected list matches: the
not-found message, and the state is untouched. -/
theorem toggle_protocol_notfound (env : Env) (st : CLIState) (cfg : Config)
    (p ct : String) (hcfg : st.config = some cfg)
    (h : ∀ x ∈ clockList cfg ct, pyLower x.protocol ≠ pyLower p) :
    toggle_protocol env st p ct = (notFoundMsg p ct, st) := by
  simp [toggle_protocol, hcfg, flipFirst_none p _ h]

end TimebeatCLI

/-! ### The claims -/

/-- C1: the specification says that after the session loop dispatches the
terminate command (`exit`/`quit`) the handler returns the farewell and the
loop ends, with no further prompt and no later input line dispatched.  The
code violates this: `handle_client` never breaks on the terminate command,
so after `exit` the session re-prompts and dispatches the next line —
here `status`, answered with the status output.  End-of-input alone does
end the loop, without a farewell (second conjunct). -/
theorem C1_exit_does_not_end_loop :
    (TimebeatSSHServer.session_loop (TimebeatSSHServer.commands envAllOk) stPtpOn
        ["exit", "status"]).1 =
      ["timebeat> ", "Goodbye!\n\n", "timebeat> ", "ACTIVE\n\n", "timebeat> "] ∧
    (TimebeatSSHServer.session_loop (TimebeatSSHServer.commands envAllOk) stPtpOn []).1 =
      ["timebeat> "] := by
  decide

/-- C2 counterexample: every precondition of the claim holds — a `ptp`
entry exists in the primary class, save succeeds and the restart succeeds —
yet after `enable ptp` the `protocols` listing shows the entry DISABLED,
because the underlying operation flips the flag of the already-enabled
entry.  So "shows X's entry as ENABLED with no precondition on the entry's
prior state" is false. -/
theorem C2_counterexample_enable_flips_enabled_entry :
    (TimebeatSSHServer.enable_protocol envAllOk stPtpOn ["ptp"]).1 =
      "Protocol PTP DISABLED in primary clocks" ∧
    TimebeatCLI.list_protocols (TimebeatSSHServer.enable_protocol envAllOk stPtpOn ["ptp"]).2 =
      "=== PRIMARY CLOCKS ===\n  PTP: DISABLED (eth0)\n\n=== SECONDARY CLOCKS ===" ∧
    pyIn "PTP: ENABLED"
      (TimebeatCLI.list_protocols
        (TimebeatSSHServer.enable_protocol envAllOk stPtpOn ["ptp"]).2) = false := by
  decide

/-- C2 (amended): for a loaded configuration whose selected clock class has
a first case-insensitive match `c` for the protocol, with save succeeding:
if `c` is currently disabled, `enable` followed by `protocols` shows the
entry's line with ENABLED; if `c` is currently enabled, `disable` followed
by `protocols` shows its line with DISABLED. -/
theorem C2_enable_disable_show_expected_state
    (env : Env) (st : CLIState) (cfg : Config) (p ct : String) (rest : List String)
    (pre post : List ClockEntry) (c : ClockEntry)
    (hcfg : st.config = some cfg) (hsave : env.saveOk = true)
    (hctdef : TimebeatSSHServer.argClockType rest = ct)
    (hct : ct = "primary" ∨ ct = "secondary")
    (hdec : TimebeatCLI.clockList cfg ct = pre ++ c :: post)
    (hpre : ∀ x ∈ pre, pyLower x.protocol ≠ pyLower p)
    (hc : pyLower c.protocol = pyLower p) :
    (c.disable = true →
      pyIn "ENABLED" (TimebeatCLI.clockLine (TimebeatCLI.flipEntry c)) = true ∧
      pyIn (TimebeatCLI.clockLine (TimebeatCLI.flipEntry c))
        (TimebeatCLI.list_protocols
          (TimebeatSSHServer.enable_protocol env st (p :: rest)).2) = true) ∧
    (c.disable = false →
      pyIn "DISABLED" (TimebeatCLI.clockLine (TimebeatCLI.flipEntry c)) = true ∧
      pyIn (TimebeatCLI.clockLine (TimebeatCLI.flipEntry c))
        (TimebeatCLI.list_protocols
          (TimebeatSSHServer.disable_protocol env st (p :: rest)).2) = true) := by
  have htog := TimebeatCLI.toggle_protocol_found_save env st cfg p ct pre c post
    hcfg hsave hdec hpre hc
  have hmem : TimebeatCLI.flipEntry c ∈
      (TimebeatCLI.withClockList cfg ct (pre ++ TimebeatCLI.flipEntry c :: post)).primary_clocks ∨
      TimebeatCLI.flipEntry c ∈
      (TimebeatCLI.withClockList cfg ct (pre ++ TimebeatCLI.flipEntry c :: post)).secondary_clocks := by
    have hl := TimebeatCLI.clockList_withClockList cfg ct
      (pre ++ TimebeatCLI.flipEntry c :: post) hct
    rcases hct with h | h
    · left
      have hp2 : (TimebeatCLI.withClockList cfg ct
          (pre ++ TimebeatCLI.flipEntry c :: post)).primary_clocks =
          pre ++ TimebeatCLI.flipEntry c :: post := by
        simpa [TimebeatCLI.clockList, h] using hl
      rw [hp2]
      simp
    · right
      have hp2 : (TimebeatCLI.withClockList cfg ct
          (pre ++ TimebeatCLI.flipEntry c :: post)).secondary_clocks =
          pre ++ TimebeatCLI.flipEntry c :: post := by
        simpa [TimebeatCLI.clockList, h] using hl
      rw [hp2]
      simp
  constructor
  · intro hdis
    have hflip : (TimebeatCLI.flipEntry c).disable = false := by
      simp [TimebeatCLI.flipEntry, hdis]
    have hline : pyIn "ENABLED" (TimebeatCLI.clockLine (TimebeatCLI.flipEntry c)) = true := by
      have hs := TimebeatCLI.pyIn_status_clockLine (TimebeatCLI.flipEntry c)
      simpa [hflip] using hs
    refine ⟨hline, ?_⟩
    have hres : (TimebeatSSHServer.enable_protocol env st (p :: rest)).2 =
        ⟨some (TimebeatCLI.withClockList cfg ct (pre ++ TimebeatCLI.flipEntry c :: post)),
         some (TimebeatCLI.withClockList cfg ct (pre ++ TimebeatCLI.flipEntry c :: post))⟩ := by
      simp only [TimebeatSSHServer.enable_protocol]
      rw [hctdef, htog, hdis]
      simp [TimebeatCLI.pyIn_toggleMsg_self]
    exact TimebeatCLI.pyIn_clockLine_list_protocols _ _ _ (by rw [hres]) hmem
  · intro hdis
    have hflip : (TimebeatCLI.flipEntry c).disable = true := by
      simp [TimebeatCLI.flipEntry, hdis]
    have hline : pyIn "DISABLED" (TimebeatCLI.clockLine (TimebeatCLI.flipEntry c)) = true := by
      have hs := TimebeatCLI.pyIn_status_clockLine (TimebeatCLI.flipEntry c)
      simpa [hflip] using hs
    refine ⟨hline, ?_⟩
    have hres : (TimebeatSSHServer.disable_protocol env st (p :: rest)).2 =
        ⟨some (TimebeatCLI.withClockList cfg ct (pre ++ TimebeatCLI.flipEntry c :: post)),
         some (TimebeatCLI.withClockList cfg ct (pre ++ TimebeatCLI.flipEntry c :: post))⟩ := by
      simp only [TimebeatSSHServer.disable_protocol]
      rw [hctdef, htog, hdis]
      simp [TimebeatCLI.pyIn_toggleMsg_self]
    exact TimebeatCLI.pyIn_clockLine_list_protocols _ _ _ (by rw [hres]) hmem

/-- C2 witness: the amended claim applied to a concrete disabled `ptp`
entry (enable direction) and to a concrete enabled one (disable
direction). -/
theorem C2_witness :
    (pyIn "ENABLED" (TimebeatCLI.clockLine (TimebeatCLI.flipEntry entryPtpOff)) = true ∧
     pyIn (TimebeatCLI.clockLine (TimebeatCLI.flipEntry entryPtpOff))
       (TimebeatCLI.list_protocols
         (TimebeatSSHServer.enable_protocol envAllOk stPtpOff ["ptp"]).2) = true) ∧
    (pyIn "DISABLED" (TimebeatCLI.clockLine (TimebeatCLI.flipEntry entryPtpOn)) = true ∧
     pyIn (TimebeatCLI.clockLine (TimebeatCLI.flipEntry entryPtpOn))
       (TimebeatCLI.list_protocols
         (TimebeatSSHServer.disable_protocol envAllOk stPtpOn ["ptp"]).2) = true) := by
  constructor
  · exact (C2_enable_disable_show_expected_state envAllOk stPtpOff cfgPtpOff "ptp" "primary"
      [] [] [] entryPtpOff rfl rfl rfl (Or.inl rfl) (by decide) (by decide) (by decide)).1
      (by decide)
  · exact (C2_enable_disable_show_expected_state envAllOk stPtpOn cfgPtpOn "ptp" "primary"
      [] [] [] entryPtpOn rfl rfl rfl (Or.inl rfl) (by decide) (by decide) (by decide)).2
      (by decide)
/-- C3 counterexample: the protocol argument `ENABLEDX` is not found in the
(empty) primary class, yet `enable` still invokes the restart and appends
its text, because the dispatch layer tests for the substring `"ENABLED"` in
the toggle result and the not-found message echoes the argument.  The claim
says that in the not-found outcome the restart is skipped and only the
toggle result text is returned. -/
theorem C3_counterexample_notfound_triggers_restart :
    (TimebeatSSHServer.enable_protocol envAllOk stEmpty ["ENABLEDX"]).1 =
      "Protocol ENABLEDX not found in primary clocks\nTimebeat service restarted successfully" ∧
    (TimebeatCLI.toggle_protocol envAllOk stEmpty "ENABLEDX" "primary").1 =
      "Protocol ENABLEDX not found in primary clocks" := by
  decide

/-- C3 (amended): provided neither the protocol argument (as typed or
uppercased) nor the clock-class argument contains the token `ENABLED`
(resp. `DISABLED` for `disable`), the restart is invoked exactly when the
toggle brought the entry to the expected state — the response is then the
toggle text and the restart text joined by a newline — and in every other
outcome (flip to the opposite state, save failure, entry not found) the
restart is skipped and the toggle result text alone is returned.  Without
that proviso, a not-found message echoing a token-containing argument also
triggers the restart (see the counterexample). -/
theorem C3_restart_iff_expected_state
    (env : Env) (st : CLIState) (cfg : Config) (p ct : String) (rest : List String)
    (hcfg : st.config = some cfg) (hctdef : TimebeatSSHServer.argClockType rest = ct) :
    (pyIn "ENABLED" p = false → pyIn "ENABLED" (pyUpper p) = false →
     pyIn "ENABLED" ct = false →
      (∀ pre c post, TimebeatCLI.clockList cfg ct = pre ++ c :: post →
        (∀ x ∈ pre, pyLower x.protocol ≠ pyLower p) → pyLower c.protocol = pyLower p →
        (c.disable = true → env.saveOk = true →
          TimebeatSSHServer.enable_protocol env st (p :: rest) =
            (TimebeatCLI.toggleMsg p ct "ENABLED" ++ "\n" ++ TimebeatCLI.restart_service env,
             ⟨some (TimebeatCLI.withClockList cfg ct (pre ++ TimebeatCLI.flipEntry c :: post)),
              some (TimebeatCLI.withClockList cfg ct (pre ++ TimebeatCLI.flipEntry c :: post))⟩)) ∧
        (c.disable = false → env.saveOk = true →
          TimebeatSSHServer.enable_protocol env st (p :: rest) =
            (TimebeatCLI.toggleMsg p ct "DISABLED",
             ⟨some (TimebeatCLI.withClockList cfg ct (pre ++ TimebeatCLI.flipEntry c :: post)),
              some (TimebeatCLI.withClockList cfg ct (pre ++ TimebeatCLI.flipEntry c :: post))⟩)) ∧
        (env.saveOk = false →
          TimebeatSSHServer.enable_protocol env st (p :: rest) =
            ("Failed to save configuration",
             ⟨some (TimebeatCLI.withClockList cfg ct (pre ++ TimebeatCLI.flipEntry c :: post)),
              st.disk⟩))) ∧
      ((∀ x ∈ TimebeatCLI.clockList cfg ct, pyLower x.protocol ≠ pyLower p) →
        TimebeatSSHServer.enable_protocol env st (p :: rest) =
          (TimebeatCLI.notFoundMsg p ct, st))) ∧
    (pyIn "DISABLED" p = false → pyIn "DISABLED" (pyUpper p) = false →
     pyIn "DISABLED" ct = false →
      (∀ pre c post, TimebeatCLI.clockList cfg ct = pre ++ c :: post →
        (∀ x ∈ pre, pyLower x.protocol ≠ pyLower p) → pyLower c.protocol = pyLower p →
        (c.disable = false → env.saveOk = true →
          TimebeatSSHServer.disable_protocol env st (p :: rest) =
            (TimebeatCLI.toggleMsg p ct "DISABLED" ++ "\n" ++ TimebeatCLI.restart_service env,
             ⟨some (TimebeatCLI.withClockList cfg ct (pre ++ TimebeatCLI.flipEntry c :: post)),
              some (TimebeatCLI.withClockList cfg ct (pre ++ TimebeatCLI.flipEntry c :: post))⟩)) ∧
        (c.disable = true → env.saveOk = true →
          TimebeatSSHServer.disable_protocol env st (p :: rest) =
            (TimebeatCLI.toggleMsg p ct "ENABLED",
             ⟨some (TimebeatCLI.withClockList cfg ct (pre ++ TimebeatCLI.flipEntry c :: post)),
              some (TimebeatCLI.withClockList cfg ct (pre ++ TimebeatCLI.flipEntry c :: post))⟩)) ∧
        (env.saveOk = false →
          TimebeatSSHServer.disable_protocol env st (p :: rest) =
            ("Failed to save configuration",
             ⟨some (TimebeatCLI.withClockList cfg ct (pre ++ TimebeatCLI.flipEntry c :: post)),
              st.disk⟩))) ∧
      ((∀ x ∈ TimebeatCLI.clockList cfg ct, pyLower x.protocol ≠ pyLower p) →
        TimebeatSSHServer.disable_protocol env st (p :: rest) =
          (TimebeatCLI.notFoundMsg p ct, st))) := by
  constructor
  · intro hp hpu hct
    constructor
    · intro pre c post hdec hpre hcm
      refine ⟨?_, ?_, ?_⟩
      · intro hdis hsave
        have htog := TimebeatCLI.toggle_protocol_found_save env st cfg p ct pre c post
          hcfg hsave hdec hpre hcm
        simp only [TimebeatSSHServer.enable_protocol]
        rw [hctdef, htog, hdis]
        simp [TimebeatCLI.pyIn_toggleMsg_self]
      · intro hdis hsave
        have htog := TimebeatCLI.toggle_protocol_found_save env st cfg p ct pre c post
          hcfg hsave hdec hpre hcm
        have hbr : pyIn "ENABLED" (TimebeatCLI.toggleMsg p ct "DISABLED") = false := by
          rw [TimebeatCLI.pyIn_toggleMsg_eq "ENABLED" p ct "DISABLED" (by decide) (by decide)
            (by decide) (by decide) (by decide), hpu, hct]
          decide
        simp only [TimebeatSSHServer.enable_protocol]
        rw [hctdef, htog, hdis]
        simp [hbr]
      · intro hsave
        have htog := TimebeatCLI.toggle_protocol_found_nosave env st cfg p ct pre c post
          hcfg hsave hdec hpre hcm
        have hbr : pyIn "ENABLED" "Failed to save configuration" = false := by decide
        simp only [TimebeatSSHServer.enable_protocol]
        rw [hctdef, htog]
        simp [hbr]
    · intro hnone
      have htog := TimebeatCLI.toggle_protocol_notfound env st cfg p ct hcfg hnone
      have hbr : pyIn "ENABLED" (TimebeatCLI.notFoundMsg p ct) = false := by
        rw [TimebeatCLI.pyIn_notFoundMsg_eq "ENABLED" p ct (by decide) (by decide)
          (by decide) (by decide) (by decide) (by decide) (by decide), hp, hct]
        decide
      simp only [TimebeatSSHServer.enable_protocol]
      rw [hctdef, htog]
      simp [hbr]
  · intro hp hpu hct
    constructor
    · intro pre c post hdec hpre hcm
      refine ⟨?_, ?_, ?_⟩
      · intro hdis hsave
        have htog := TimebeatCLI.toggle_protocol_found_save env st cfg p ct pre c post
          hcfg hsave hdec hpre hcm
        simp only [TimebeatSSHServer.disable_protocol]
        rw [hctdef, htog, hdis]
        simp [TimebeatCLI.pyIn_toggleMsg_self]
      · intro hdis hsave
        have htog := TimebeatCLI.toggle_protocol_found_save env st cfg p ct pre c post
          hcfg hsave hdec hpre hcm
        have hbr : pyIn "DISABLED" (TimebeatCLI.toggleMsg p ct "ENABLED") = false := by
          rw [TimebeatCLI.pyIn_toggleMsg_eq "DISABLED" p ct "ENABLED" (by decide) (by decide)
            (by decide) (by decide) (by decide), hpu, hct]
          decide
        simp only [TimebeatSSHServer.disable_protocol]
        rw [hctdef, htog, hdis]
        simp [hbr]
      · intro hsave
        have htog := TimebeatCLI.toggle_protocol_found_nosave env st cfg p ct pre c post
          hcfg hsave hdec hpre hcm
        have hbr : pyIn "DISABLED" "Failed to save configuration" = false := by decide
        simp only [TimebeatSSHServer.disable_protocol]
        rw [hctdef, htog]
        simp [hbr]
    · intro hnone
      have htog := TimebeatCLI.toggle_protocol_notfound env st cfg p ct hcfg hnone
      have hbr : pyIn "DISABLED" (TimebeatCLI.notFoundMsg p ct) = false := by
        rw [TimebeatCLI.pyIn_notFoundMsg_eq "DISABLED" p ct (by decide) (by decide)
          (by decide) (by decide) (by decide) (by decide) (by decide), hp, hct]
        decide
      simp only [TimebeatSSHServer.disable_protocol]
      rw [hctdef, htog]
      simp [hbr]

/-- C3 witness: the amended claim instantiated at a disabled `ptp` entry
with everything succeeding — the toggle reaches ENABLED and the response is
the toggle text and the restart text joined by a newline. -/
theorem C3_witness :
    TimebeatSSHServer.enable_protocol envAllOk stPtpOff ["ptp"] =
      (TimebeatCLI.toggleMsg "ptp" "primary" "ENABLED" ++ "\n" ++
        TimebeatCLI.restart_service envAllOk,
       ⟨some (TimebeatCLI.withClockList cfgPtpOff "primary"
          ([] ++ TimebeatCLI.flipEntry entryPtpOff :: [])),
        some (TimebeatCLI.withClockList cfgPtpOff "primary"
          ([] ++ TimebeatCLI.flipEntry entryPtpOff :: []))⟩) := by
  have h := C3_restart_iff_expected_state envAllOk stPtpOff cfgPtpOff "ptp" "primary" []
    rfl rfl
  have h2 := (h.1 (by decide) (by decide) (by decide)).1 [] entryPtpOff [] (by decide)
    (by decide) (by decide)
  exact h2.1 (by decide) rfl
/-- C4: for every input line, dispatch never terminates the session: the
loop output on `line :: rest` is the prompt, some line-dependent responses,
and then exactly the processing of `rest` (first conjunct, for an arbitrary
command table and hence for the program's own); an unknown command name
yields exactly the unknown-command message plus the help hint and the loop
continues on the unchanged state (second conjunct); a handler raising any
exception yields the error-executing line and the loop continues from the
handler's state (third conjunct). -/
theorem C4_dispatch_never_terminates
    (tbl : String → Option TimebeatSSHServer.Handler) (st : CLIState)
    (line : String) (rest : List String) :
    (∃ outs st2, TimebeatSSHServer.session_loop tbl st (line :: rest) =
        ("timebeat> " :: (outs ++ (TimebeatSSHServer.session_loop tbl st2 rest).1),
         (TimebeatSSHServer.session_loop tbl st2 rest).2)) ∧
    (∀ p args, pySplit (pyStrip line) = p :: args → tbl (pyLower p) = none →
      TimebeatSSHServer.session_loop tbl st (line :: rest) =
        ("timebeat> " :: ("Unknown command: " ++ pyLower p ++ "\n") ::
          "Type \x27help\x27 for available commands\n\n" ::
          (TimebeatSSHServer.session_loop tbl st rest).1,
         (TimebeatSSHServer.session_loop tbl st rest).2)) ∧
    (∀ p args h e st2, pySplit (pyStrip line) = p :: args → tbl (pyLower p) = some h →
      h st args = (.raised e, st2) →
      TimebeatSSHServer.session_loop tbl st (line :: rest) =
        ("timebeat> " :: ("Error executing command: " ++ e ++ "\n\n") ::
          (TimebeatSSHServer.session_loop tbl st2 rest).1,
         (TimebeatSSHServer.session_loop tbl st2 rest).2)) := by
  refine ⟨?_, ?_, ?_⟩
  · by_cases hempty : pyStrip line = ""
    · exact ⟨[], st, by simp [TimebeatSSHServer.session_loop, hempty]⟩
    · exact ⟨(TimebeatSSHServer.processLine tbl st (pyStrip line)).1,
        (TimebeatSSHServer.processLine tbl st (pyStrip line)).2,
        by simp [TimebeatSSHServer.session_loop, hempty]⟩
  · intro p args hsplit htbl
    have hne : pyStrip line ≠ "" := by
      intro h0
      rw [h0, pySplit_empty] at hsplit
      exact List.noConfusion hsplit
    simp [TimebeatSSHServer.session_loop, hne, TimebeatSSHServer.processLine, hsplit, htbl]
  · intro p args h e st2 hsplit htbl hrun
    have hne : pyStrip line ≠ "" := by
      intro h0
      rw [h0, pySplit_empty] at hsplit
      exact List.noConfusion hsplit
    simp [TimebeatSSHServer.session_loop, hne, TimebeatSSHServer.processLine, hsplit, htbl,
      hrun]

/-- C4 witness: an unknown command (`what`) and a raising handler (`boom`)
each produce their message and the loop goes on to process the remaining
input. -/
theorem C4_witness :
    TimebeatSSHServer.session_loop tblRaise stEmpty ["what"] =
      ("timebeat> " :: ("Unknown command: " ++ pyLower "what" ++ "\n") ::
        "Type \x27help\x27 for available commands\n\n" ::
        (TimebeatSSHServer.session_loop tblRaise stEmpty []).1,
       (TimebeatSSHServer.session_loop tblRaise stEmpty []).2) ∧
    TimebeatSSHServer.session_loop tblRaise stEmpty ["boom now"] =
      ("timebeat> " :: ("Error executing command: " ++ "X" ++ "\n\n") ::
        (TimebeatSSHServer.session_loop tblRaise stEmpty []).1,
       (TimebeatSSHServer.session_loop tblRaise stEmpty []).2) := by
  constructor
  · exact (C4_dispatch_never_terminates tblRaise stEmpty "what" []).2.1 "what" []
      (by decide) rfl
  · exact (C4_dispatch_never_terminates tblRaise stEmpty "boom now" []).2.2 "boom" ["now"]
      (fun st _ => (.raised "X", st)) "X" stEmpty (by decide) rfl rfl
/-- C5: when save fails during `toggle_protocol` for a matching entry, the
operation returns the distinct save-failure message, the on-disk file is
unchanged, and the in-memory document keeps the flipped flag of the first
match (no rollback); and `save_config` itself never mutates the in-memory
document, whatever its outcome. -/
theorem C5_save_failure_mutates_memory_not_disk
    (env : Env) (st : CLIState) (cfg : Config) (p ct : String)
    (pre post : List ClockEntry) (c : ClockEntry)
    (hcfg : st.config = some cfg) (hsave : env.saveOk = false)
    (hct : ct = "primary" ∨ ct = "secondary")
    (hdec : TimebeatCLI.clockList cfg ct = pre ++ c :: post)
    (hpre : ∀ x ∈ pre, pyLower x.protocol ≠ pyLower p)
    (hc : pyLower c.protocol = pyLower p) :
    (TimebeatCLI.toggle_protocol env st p ct).1 = "Failed to save configuration" ∧
    (TimebeatCLI.toggle_protocol env st p ct).2.disk = st.disk ∧
    (∃ cfg2, (TimebeatCLI.toggle_protocol env st p ct).2.config = some cfg2 ∧
      TimebeatCLI.clockList cfg2 ct = pre ++ TimebeatCLI.flipEntry c :: post ∧
      (TimebeatCLI.flipEntry c).disable = !c.disable) ∧
    (∀ env2 st2, (TimebeatCLI.save_config env2 st2).2.config = st2.config) := by
  have htog := TimebeatCLI.toggle_protocol_found_nosave env st cfg p ct pre c post
    hcfg hsave hdec hpre hc
  refine ⟨by rw [htog], by rw [htog], ⟨_, by rw [htog],
    TimebeatCLI.clockList_withClockList cfg ct _ hct, rfl⟩, ?_⟩
  intro env2 st2
  unfold TimebeatCLI.save_config
  by_cases h : env2.saveOk <;> simp [h]

/-- C5 witness: the theorem applied to a concrete enabled `ptp` entry with
a failing save. -/
theorem C5_witness :
    (TimebeatCLI.toggle_protocol envNoSave stPtpOn "ptp" "primary").1 =
      "Failed to save configuration" ∧
    (TimebeatCLI.toggle_protocol envNoSave stPtpOn "ptp" "primary").2.disk = stPtpOn.disk ∧
    (∃ cfg2, (TimebeatCLI.toggle_protocol envNoSave stPtpOn "ptp" "primary").2.config =
        some cfg2 ∧
      TimebeatCLI.clockList cfg2 "primary" =
        [] ++ TimebeatCLI.flipEntry entryPtpOn :: [] ∧
      (TimebeatCLI.flipEntry entryPtpOn).disable = !entryPtpOn.disable) ∧
    (∀ env2 st2, (TimebeatCLI.save_config env2 st2).2.config = st2.config) :=
  C5_save_failure_mutates_memory_not_disk envNoSave stPtpOn cfgPtpOn "ptp" "primary"
    [] [] entryPtpOn rfl rfl (Or.inl rfl) (by decide) (by decide) (by decide)

/-- C6: when two or more entries of the selected clock class match the
protocol name case-insensitively, only the first matching entry is flipped:
the resulting document's selected list is the unchanged prefix of
non-matching entries, the flipped first match, and the verbatim-unchanged
tail (which contains every later match), and every other class key reads
exactly as before. -/
theorem C6_only_first_match_flipped
    (env : Env) (st : CLIState) (cfg : Config) (p ct : String)
    (pre post : List ClockEntry) (c : ClockEntry)
    (hcfg : st.config = some cfg)
    (hct : ct = "primary" ∨ ct = "secondary")
    (hdec : TimebeatCLI.clockList cfg ct = pre ++ c :: post)
    (hpre : ∀ x ∈ pre, pyLower x.protocol ≠ pyLower p)
    (hc : pyLower c.protocol = pyLower p)
    (hmulti : ∃ d ∈ post, pyLower d.protocol = pyLower p) :
    ∃ cfg2, (TimebeatCLI.toggle_protocol env st p ct).2.config = some cfg2 ∧
      TimebeatCLI.clockList cfg2 ct = pre ++ TimebeatCLI.flipEntry c :: post ∧
      ∀ ct2, ct2 ≠ ct → TimebeatCLI.clockList cfg2 ct2 = TimebeatCLI.clockList cfg ct2 := by
  cases hs : env.saveOk
  · have htog := TimebeatCLI.toggle_protocol_found_nosave env st cfg p ct pre c post
      hcfg hs hdec hpre hc
    exact ⟨_, by rw [htog], TimebeatCLI.clockList_withClockList cfg ct _ hct,
      fun ct2 hne => TimebeatCLI.clockList_withClockList_other cfg ct ct2 _ hct hne⟩
  · have htog := TimebeatCLI.toggle_protocol_found_save env st cfg p ct pre c post
      hcfg hs hdec hpre hc
    exact ⟨_, by rw [htog], TimebeatCLI.clockList_withClockList cfg ct _ hct,
      fun ct2 hne => TimebeatCLI.clockList_withClockList_other cfg ct ct2 _ hct hne⟩

/-- C6 witness: two primary entries both named `ptp` (one in upper case):
toggling flips only the first, the second stays verbatim, and the secondary
class reads unchanged. -/
theorem C6_witness :
    ∃ cfg2, (TimebeatCLI.toggle_protocol envAllOk stTwoPtp "ptp" "primary").2.config =
        some cfg2 ∧
      TimebeatCLI.clockList cfg2 "primary" =
        [] ++ TimebeatCLI.flipEntry entryPtpOn :: [entryPtpUpper] ∧
      ∀ ct2, ct2 ≠ "primary" →
        TimebeatCLI.clockList cfg2 ct2 = TimebeatCLI.clockList cfgTwoPtp ct2 :=
  C6_only_first_match_flipped envAllOk stTwoPtp cfgTwoPtp "ptp" "primary"
    [] [entryPtpUpper] entryPtpOn rfl (Or.inl rfl) (by decide) (by decide) (by decide)
    ⟨entryPtpUpper, by decide⟩

/-- C7: `logs` with no argument requests exactly 50 lines from the log
tool, `logs n` with a digit-string first argument requests exactly the
value of that argument, and a non-numeric first argument falls back to
50. -/
theorem C7_logs_line_count (env : Env) :
    TimebeatSSHServer.show_logs env [] = TimebeatCLI.get_logs env 50 ∧
    (∀ a rest, TimebeatSSHServer.isDigitStr a = true →
      TimebeatSSHServer.show_logs env (a :: rest) =
        TimebeatCLI.get_logs env (TimebeatSSHServer.digitsToNat a)) ∧
    (∀ a rest, TimebeatSSHServer.isDigitStr a = false →
      TimebeatSSHServer.show_logs env (a :: rest) = TimebeatCLI.get_logs env 50) := by
  refine ⟨rfl, ?_, ?_⟩ <;> intro a rest h <;>
    simp [TimebeatSSHServer.show_logs, TimebeatSSHServer.show_logs_lines, h]

/-- C7 witness: with a log tool that reports the requested count, `logs 7`
requests 7 lines and `logs abc` falls back to 50. -/
theorem C7_witness :
    TimebeatSSHServer.show_logs envLogsProbe ["7"] = TimebeatCLI.get_logs envLogsProbe 7 ∧
    TimebeatSSHServer.show_logs envLogsProbe ["abc"] = TimebeatCLI.get_logs envLogsProbe 50 ∧
    TimebeatCLI.get_logs envLogsProbe 7 = "seven" ∧
    TimebeatCLI.get_logs envLogsProbe 50 = "fifty" :=
  ⟨(C7_logs_line_count envLogsProbe).2.1 "7" [] (by decide),
   (C7_logs_line_count envLogsProbe).2.2 "abc" [] (by decide),
   by decide, by decide⟩
/-- C8 counterexample: `systemctl status` exits with code 3, stdout
`inactive` and stderr `boom`, yet `get_status` returns the raw stdout — not
an error line and without the stderr the claim says it embeds. -/
theorem C8_counterexample_status_ignores_exit_code :
    TimebeatCLI.get_status envStatusFail = "inactive" ∧
    pyIn "boom" (TimebeatCLI.get_status envStatusFail) = false := by
  decide

/-- C8 (amended): `startService` / `stopService` / `restartService` return
their success line exactly on a zero exit status and otherwise an error
line embedding the tool's stderr, and an invocation failure degrades to an
error line; `queryStatus`, however, returns the tool's raw stdout whatever
the exit status (an error line only when the invocation itself raises).
None of the four raises: each is a total function into response text. -/
theorem C8_service_adapters (env : Env) (r : RunResult) (e : String) :
    (env.systemctlStatus = Except.ok r → TimebeatCLI.get_status env = r.stdout) ∧
    (env.systemctlStatus = Except.error e →
      TimebeatCLI.get_status env = "Error getting status: " ++ e) ∧
    (env.systemctlStart = Except.ok r → r.returncode = 0 →
      TimebeatCLI.start_service env = "Timebeat service started successfully") ∧
    (env.systemctlStart = Except.ok r → r.returncode ≠ 0 →
      TimebeatCLI.start_service env = "Failed to start timebeat: " ++ r.stderr ∧
      pyIn r.stderr (TimebeatCLI.start_service env) = true) ∧
    (env.systemctlStart = Except.error e →
      TimebeatCLI.start_service env = "Error starting service: " ++ e) ∧
    (env.systemctlStop = Except.ok r → r.returncode = 0 →
      TimebeatCLI.stop_service env = "Timebeat service stopped successfully") ∧
    (env.systemctlStop = Except.ok r → r.returncode ≠ 0 →
      TimebeatCLI.stop_service env = "Failed to stop timebeat: " ++ r.stderr ∧
      pyIn r.stderr (TimebeatCLI.stop_service env) = true) ∧
    (env.systemctlStop = Except.error e →
      TimebeatCLI.stop_service env = "Error stopping service: " ++ e) ∧
    (env.systemctlRestart = Except.ok r → r.returncode = 0 →
      TimebeatCLI.restart_service env = "Timebeat service restarted successfully") ∧
    (env.systemctlRestart = Except.ok r → r.returncode ≠ 0 →
      TimebeatCLI.restart_service env = "Failed to restart timebeat: " ++ r.stderr ∧
      pyIn r.stderr (TimebeatCLI.restart_service env) = true) ∧
    (env.systemctlRestart = Except.error e →
      TimebeatCLI.restart_service env = "Error restarting service: " ++ e) := by
  refine ⟨?_, ?_, ?_, ?_, ?_, ?_, ?_, ?_, ?_, ?_, ?_⟩
  · intro h
    simp [TimebeatCLI.get_status, h]
  · intro h
    simp [TimebeatCLI.get_status, h]
  · intro h h0
    simp [TimebeatCLI.start_service, h, h0]
  · intro h h0
    have he : TimebeatCLI.start_service env = "Failed to start timebeat: " ++ r.stderr := by
      simp [TimebeatCLI.start_service, h, h0]
    exact ⟨he, by rw [he]; exact pyIn_suffix r.stderr "Failed to start timebeat: "⟩
  · intro h
    simp [TimebeatCLI.start_service, h]
  · intro h h0
    simp [TimebeatCLI.stop_service, h, h0]
  · intro h h0
    have he : TimebeatCLI.stop_service env = "Failed to stop timebeat: " ++ r.stderr := by
      simp [TimebeatCLI.stop_service, h, h0]
    exact ⟨he, by rw [he]; exact pyIn_suffix r.stderr "Failed to stop timebeat: "⟩
  · intro h
    simp [TimebeatCLI.stop_service, h]
  · intro h h0
    simp [TimebeatCLI.restart_service, h, h0]
  · intro h h0
    have he : TimebeatCLI.restart_service env = "Failed to restart timebeat: " ++ r.stderr := by
      simp [TimebeatCLI.restart_service, h, h0]
    exact ⟨he, by rw [he]; exact pyIn_suffix r.stderr "Failed to restart timebeat: "⟩
  · intro h
    simp [TimebeatCLI.restart_service, h]

/-- C8 witness: the amended claim at concrete environments — raw stdout on
a nonzero-exit status query, a success line, an error line embedding
stderr, and a degraded invocation failure. -/
theorem C8_witness :
    TimebeatCLI.get_status envStatusFail = "inactive" ∧
    TimebeatCLI.start_service envAllOk = "Timebeat service started successfully" ∧
    (TimebeatCLI.start_service envStartFail = "Failed to start timebeat: " ++ "nope" ∧
      pyIn "nope" (TimebeatCLI.start_service envStartFail) = true) ∧
    TimebeatCLI.get_status envSvcErr = "Error getting status: " ++ "E1" ∧
    TimebeatCLI.stop_service envSvcErr = "Error stopping service: " ++ "E3" ∧
    TimebeatCLI.restart_service envSvcErr = "Error restarting service: " ++ "E4" :=
  ⟨(C8_service_adapters envStatusFail ⟨3, "inactive", "boom"⟩ "").1 rfl,
   (C8_service_adapters envAllOk ⟨0, "", ""⟩ "").2.2.1 rfl rfl,
   (C8_service_adapters envStartFail ⟨1, "", "nope"⟩ "").2.2.2.1 rfl (by decide),
   (C8_service_adapters envSvcErr ⟨0, "", ""⟩ "E1").2.1 rfl,
   (C8_service_adapters envSvcErr ⟨0, "", ""⟩ "E3").2.2.2.2.2.2.2.1 rfl,
   (C8_service_adapters envSvcErr ⟨0, "", ""⟩ "E4").2.2.2.2.2.2.2.2.2.2 rfl⟩

/-- C9 counterexample: exactly one of the two clock tools fails (the
`chrony` invocation raises while `timedatectl` would succeed with output
`TDCTL`), yet the result is a single error line that does not contain the
other tool's output — the claim says partial failure still returns the
other's output plus an inline error note. -/
theorem C9_counterexample_partial_failure_drops_other_output :
    TimebeatCLI.get_clock_sync_status envChronyFail =
      "Error getting clock sync status: no chrony" ∧
    pyIn "TDCTL" (TimebeatCLI.get_clock_sync_status envChronyFail) = false := by
  decide

/-- C9 (amended): when both invocations complete, the two stdouts are
concatenated with a separating newline regardless of either exit status;
but if either invocation raises, the entire result is one error line and
the other tool's output is not part of it. -/
theorem C9_clock_status_concatenation (env : Env) (r1 r2 : RunResult) (e : String) :
    (env.chronySources = Except.ok r1 → env.timedatectl = Except.ok r2 →
      TimebeatCLI.get_clock_sync_status env = r1.stdout ++ "\n" ++ r2.stdout) ∧
    (env.chronySources = Except.error e →
      TimebeatCLI.get_clock_sync_status env = "Error getting clock sync status: " ++ e) ∧
    (env.chronySources = Except.ok r1 → env.timedatectl = Except.error e →
      TimebeatCLI.get_clock_sync_status env = "Error getting clock sync status: " ++ e) := by
  refine ⟨?_, ?_, ?_⟩
  · intro h1 h2
    simp [TimebeatCLI.get_clock_sync_status, h1, h2]
  · intro h1
    simp [TimebeatCLI.get_clock_sync_status, h1]
  · intro h1 h2
    simp [TimebeatCLI.get_clock_sync_status, h1, h2]

/-- C9 witness: concatenation when both tools complete, and the two
single-error-line outcomes. -/
theorem C9_witness :
    TimebeatCLI.get_clock_sync_status envAllOk = "CHRONY" ++ "\n" ++ "TDCTL" ∧
    TimebeatCLI.get_clock_sync_status envChronyFail =
      "Error getting clock sync status: " ++ "no chrony" ∧
    TimebeatCLI.get_clock_sync_status envTdctlFail =
      "Error getting clock sync status: " ++ "no tdc" :=
  ⟨(C9_clock_status_concatenation envAllOk ⟨0, "CHRONY", ""⟩ ⟨0, "TDCTL", ""⟩ "").1 rfl rfl,
   (C9_clock_status_concatenation envChronyFail ⟨0, "", ""⟩ ⟨0, "", ""⟩ "no chrony").2.1 rfl,
   (C9_clock_status_concatenation envTdctlFail ⟨0, "CHRONY", ""⟩ ⟨0, "", ""⟩ "no tdc").2.2
     rfl rfl⟩

/-- C10: with the entry present and save succeeding, toggling the same
protocol twice restores the in-memory document exactly (the flip is an
involution), and the two calls report opposite states: the first reports
ENABLED exactly when the entry was disabled, the second reports the
opposite word. -/
theorem C10_toggle_twice_restores
    (env : Env) (st : CLIState) (cfg : Config) (p ct : String)
    (pre post : List ClockEntry) (c : ClockEntry)
    (hcfg : st.config = some cfg) (hsave : env.saveOk = true)
    (hct : ct = "primary" ∨ ct = "secondary")
    (hdec : TimebeatCLI.clockList cfg ct = pre ++ c :: post)
    (hpre : ∀ x ∈ pre, pyLower x.protocol ≠ pyLower p)
    (hc : pyLower c.protocol = pyLower p) :
    (TimebeatCLI.toggle_protocol env
        (TimebeatCLI.toggle_protocol env st p ct).2 p ct).2.config = some cfg ∧
    (TimebeatCLI.toggle_protocol env st p ct).1 =
      TimebeatCLI.toggleMsg p ct (if c.disable then "ENABLED" else "DISABLED") ∧
    (TimebeatCLI.toggle_protocol env
        (TimebeatCLI.toggle_protocol env st p ct).2 p ct).1 =
      TimebeatCLI.toggleMsg p ct (if c.disable then "DISABLED" else "ENABLED") := by
  have htog1 := TimebeatCLI.toggle_protocol_found_save env st cfg p ct pre c post
    hcfg hsave hdec hpre hc
  have hst1 : (TimebeatCLI.toggle_protocol env st p ct).2 =
      ⟨some (TimebeatCLI.withClockList cfg ct (pre ++ TimebeatCLI.flipEntry c :: post)),
       some (TimebeatCLI.withClockList cfg ct (pre ++ TimebeatCLI.flipEntry c :: post))⟩ := by
    rw [htog1]
  have hdec1 : TimebeatCLI.clockList
      (TimebeatCLI.withClockList cfg ct (pre ++ TimebeatCLI.flipEntry c :: post)) ct =
      pre ++ TimebeatCLI.flipEntry c :: post :=
    TimebeatCLI.clockList_withClockList cfg ct _ hct
  have htog2 := TimebeatCLI.toggle_protocol_found_save env
    ⟨some (TimebeatCLI.withClockList cfg ct (pre ++ TimebeatCLI.flipEntry c :: post)),
     some (TimebeatCLI.withClockList cfg ct (pre ++ TimebeatCLI.flipEntry c :: post))⟩
    (TimebeatCLI.withClockList cfg ct (pre ++ TimebeatCLI.flipEntry c :: post))
    p ct pre (TimebeatCLI.flipEntry c) post rfl hsave hdec1 hpre hc
  refine ⟨?_, ?_, ?_⟩
  · rw [hst1, htog2]
    show some (TimebeatCLI.withClockList
      (TimebeatCLI.withClockList cfg ct (pre ++ TimebeatCLI.flipEntry c :: post)) ct
      (pre ++ TimebeatCLI.flipEntry (TimebeatCLI.flipEntry c) :: post)) = some cfg
    rw [TimebeatCLI.flipEntry_flipEntry,
      TimebeatCLI.withClockList_withClockList cfg ct _ _ hct, ← hdec,
      TimebeatCLI.withClockList_self cfg ct hct]
  · rw [htog1]
    cases hd : c.disable <;> simp [hd]
  · rw [hst1, htog2]
    show TimebeatCLI.toggleMsg p ct
        (if !(TimebeatCLI.flipEntry c).disable then "DISABLED" else "ENABLED") =
      TimebeatCLI.toggleMsg p ct (if c.disable then "DISABLED" else "ENABLED")
    cases hd : c.disable <;> simp [TimebeatCLI.flipEntry, hd]

/-- C10 witness: toggling `ptp` twice on the enabled-entry fixture restores
the document and reports DISABLED then ENABLED. -/
theorem C10_witness :
    (TimebeatCLI.toggle_protocol envAllOk
        (TimebeatCLI.toggle_protocol envAllOk stPtpOn "ptp" "primary").2
        "ptp" "primary").2.config = some cfgPtpOn ∧
    (TimebeatCLI.toggle_protocol envAllOk stPtpOn "ptp" "primary").1 =
      TimebeatCLI.toggleMsg "ptp" "primary"
        (if entryPtpOn.disable then "ENABLED" else "DISABLED") ∧
    (TimebeatCLI.toggle_protocol envAllOk
        (TimebeatCLI.toggle_protocol envAllOk stPtpOn "ptp" "primary").2
        "ptp" "primary").1 =
      TimebeatCLI.toggleMsg "ptp" "primary"
        (if entryPtpOn.disable then "DISABLED" else "ENABLED") :=
  C10_toggle_twice_restores envAllOk stPtpOn cfgPtpOn "ptp" "primary" [] [] entryPtpOn
    rfl rfl (Or.inl rfl) (by decide) (by decide) (by decide)

end Timebeat
